import Mathlib

/-!
Verification development for the self-healing test-automation backend.

The definitions below are shallow embeddings of the TypeScript services in
the repository:

* `FailureAnalyzerService` (src/backend/src/services/ai-agent/FailureAnalyzer.service.ts)
* `LocatorHealerService` (src/backend/src/services/self-healing/LocatorHealer.service.ts)
* `LocatorChangeModel` (src/backend/src/models/LocatorChange.model.ts)
* the healing controller (src/backend/src/controllers/healing.controller.ts)

JavaScript numbers are modelled as rationals, the database as an explicit
record store passed through every operation, and each outbound AI-oracle
call as an explicit outcome parameter (the call either throws or yields a
parsed payload).
-/

/-- A locator, by type and value (the Locator interface of the source). -/
structure Locator where
  type : String
  value : String
  deriving DecidableEq, Repr

/-! ### Failure categories and triage results (src/backend/src/types/failure.types.ts)

The source enum `FailureCategory` has exactly five members: actual_bug,
flaky_locator, timing_issue, environmental_issue and test_data_issue.  It
has NO `UNKNOWN` member (the separate `FailureType` enum has one); the
service code nevertheless reads `FailureCategory.UNKNOWN`, which denotes
the JavaScript value `undefined`.  We therefore model a category slot as
`Option FailureCategory`, with `none` standing for that undefined value. -/

/-- The five members of the source enum FailureCategory. -/
inductive FailureCategory where
  | actual_bug
  | flaky_locator
  | timing_issue
  | environmental_issue
  | test_data_issue
  deriving DecidableEq, Repr

/-- FailureContext from failure.types.ts (the untyped previousResults field,
unused by the analyzer, is omitted). -/
structure FailureContext where
  testName : String
  platform : String
  errorMessage : String
  stackTrace : String
  locatorUsed : Option String
  screenshot : Option String
  logs : Option (List String)
  deriving DecidableEq, Repr

/-- FailureAnalysisResult from failure.types.ts.  The category slot is an
option because the running code can place the undefined value
FailureCategory.UNKNOWN there. -/
structure FailureAnalysisResult where
  category : Option FailureCategory
  confidence : ℚ
  reasoning : String
  evidencePoints : List String
  suggestedActions : List String
  rootCause : Option String
  bugProbability : ℚ
  deriving DecidableEq, Repr

/-! ### ASCII lowercasing and substring search

`getFallbackAnalysis` lowercases the error message with
String.prototype.toLowerCase and tests it with String.prototype.includes.
We model both over character lists (Char.toLower is the same ASCII map). -/

/-- Lowercased character list of a string (models toLowerCase on ASCII). -/
def lowerChars (s : String) : List Char :=
  s.toList.map Char.toLower

/-- Whether the pattern list is an initial segment of the text list. -/
def charsStartWith : List Char → List Char → Bool
  | [], _ => true
  | _ :: _, [] => false
  | p :: ps, c :: cs => p == c && charsStartWith ps cs

/-- Whether the pattern occurs as a contiguous substring of the text
(models String.prototype.includes). -/
def charsInclude (text pat : List Char) : Bool :=
  match text with
  | [] => charsStartWith pat []
  | _ :: rest => charsStartWith pat text || charsInclude rest pat

/-- Whether the lowercased text contains any of the given lowercase
patterns. -/
def includesAny (text : List Char) (pats : List String) : Bool :=
  pats.any (fun p => charsInclude text p.toList)

/-! ### FailureAnalyzerService.calculateHealingConfidence

Faithful embedding of the confidence function of
FailureAnalyzer.service.ts lines 97-144: sequential mutation of a single
`confidence` variable, switch on strategy, switch on locator type, a
previous-failures deduction, a stability term, then a clamp to [0,100]. -/

/-- Input record of calculateHealingConfidence. -/
structure HealingConfidenceParams where
  strategy : String
  locatorType : String
  previousFailures : ℤ
  elementStability : ℚ
  deriving DecidableEq, Repr

/-- calculateHealingConfidence from FailureAnalyzer.service.ts. -/
def calculateHealingConfidence (params : HealingConfidenceParams) : ℚ :=
  let confidence : ℚ := 50
  let confidence := confidence +
    (match params.strategy with
     | "ai_suggested" => 30
     | "similarity_match" => 20
     | "fallback_chain" => 25
     | _ => 0)
  let confidence := confidence +
    (match params.locatorType with
     | "id" => 15
     | "accessibilityId" => 15
     | "xpath" => 5
     | "class" => 0
     | _ => 0)
  let confidence :=
    if params.previousFailures > 5 then confidence - 20
    else if params.previousFailures > 2 then confidence - 10
    else confidence
  let confidence := confidence + params.elementStability * 10
  max 0 (min 100 confidence)

/-! ### The AI-oracle analysis path (FailureAnalyzerService.analyzeFailure)

`claudeClient.parseJsonResponse` yields an arbitrary JSON object; the raw
payload is modelled with every field optional (`none` for an absent field,
and for evidence/suggestions also for a non-array value, which the
Array.isArray checks treat the same way).  The call of analyzeFailure is
either a thrown error (oracle unreachable, unparseable JSON) or a payload. -/

/-- Raw parsed oracle payload, before normalization. -/
structure RawAnalysis where
  category : Option String
  confidence : Option ℚ
  reasoning : Option String
  evidencePoints : Option (List String)
  suggestedActions : Option (List String)
  rootCause : Option String
  deriving DecidableEq, Repr

/-- Outcome of the oracle call plus JSON parsing inside analyzeFailure. -/
inductive OracleAnalysisOutcome where
  | err : OracleAnalysisOutcome
  | ok : RawAnalysis → OracleAnalysisOutcome
  deriving DecidableEq, Repr

/-- The membership test validCategories.includes(analysis.category): a raw
string maps to the enum member with that value, anything else to the
undefined FailureCategory.UNKNOWN, that is, to none. -/
def parseCategory (s : String) : Option FailureCategory :=
  match s with
  | "actual_bug" => some .actual_bug
  | "flaky_locator" => some .flaky_locator
  | "timing_issue" => some .timing_issue
  | "environmental_issue" => some .environmental_issue
  | "test_data_issue" => some .test_data_issue
  | _ => none

/-- JavaScript x || d for a numeric field: absent or zero (falsy) gives the
default. -/
def jsNumOr (v : Option ℚ) (d : ℚ) : ℚ :=
  match v with
  | none => d
  | some x => if x = 0 then d else x

/-- JavaScript x || d for a string field: absent or empty (falsy) gives the
default. -/
def jsStrOr (v : Option String) (d : String) : String :=
  match v with
  | none => d
  | some s => if s = "" then d else s

/-- The fixed category-to-probability lookup of calculateBugProbability;
an undefined category indexes nothing and the || 50 default applies. -/
def categoryBaseProbability : Option FailureCategory → ℚ
  | some .actual_bug => 90
  | some .flaky_locator => 10
  | some .timing_issue => 30
  | some .environmental_issue => 5
  | some .test_data_issue => 20
  | none => 50

/-- calculateBugProbability from FailureAnalyzer.service.ts. -/
def calculateBugProbability (category : Option FailureCategory) (confidence : ℚ) : ℚ :=
  let baseProbability := categoryBaseProbability category
  let adjustment := ((confidence - 50) / 50) * 20
  max 0 (min 100 (baseProbability + adjustment))

/-- normalizeAnalysis from FailureAnalyzer.service.ts: each field of the
raw payload is validated and defaulted in place. -/
def normalizeAnalysis (analysis : RawAnalysis) : FailureAnalysisResult :=
  let category := analysis.category.bind parseCategory
  let confidence := max 0 (min 100 (jsNumOr analysis.confidence 50))
  let bugProbability := calculateBugProbability category confidence
  { category := category
    confidence := confidence
    reasoning := jsStrOr analysis.reasoning "No reasoning provided"
    evidencePoints := analysis.evidencePoints.getD []
    suggestedActions := analysis.suggestedActions.getD []
    rootCause := analysis.rootCause.bind (fun s => if s = "" then none else some s)
    bugProbability := bugProbability }

/-- The rule-based categorization of getFallbackAnalysis: ordered pattern
tests on the lowercased error message, yielding category, reasoning and
evidence points.  A miss on every rule leaves the category at the
undefined FailureCategory.UNKNOWN, that is, none. -/
def fallbackRules (errorLower : List Char) :
    Option FailureCategory × String × List String :=
  if includesAny errorLower ["element not found", "no such element", "could not find"] then
    (some .flaky_locator, "Error message indicates element not found",
      ["Element not found error detected"])
  else if includesAny errorLower ["timeout", "timed out", "wait"] then
    (some .timing_issue, "Error message indicates timeout",
      ["Timeout error detected"])
  else if includesAny errorLower ["network", "connection", "econnrefused"] then
    (some .environmental_issue, "Error message indicates network/connection issue",
      ["Network error detected"])
  else if includesAny errorLower ["assertion", "expected", "actual"] then
    (some .actual_bug, "Assertion failure likely indicates a bug",
      ["Assertion failure detected"])
  else
    (none, "Fallback rule-based analysis", [])

/-- getFallbackAnalysis from FailureAnalyzer.service.ts. -/
def getFallbackAnalysis (context : FailureContext) : FailureAnalysisResult :=
  let errorLower := lowerChars context.errorMessage
  let ruled := fallbackRules errorLower
  { category := ruled.1
    confidence := 50
    reasoning := ruled.2.1
    evidencePoints := ruled.2.2
    suggestedActions :=
      ["Review error message and stack trace",
       "Check recent code changes",
       "Verify test environment"]
    rootCause := none
    bugProbability := calculateBugProbability ruled.1 50 }

/-- analyzeFailure from FailureAnalyzer.service.ts: a successful oracle
round trip is normalized and returned; any thrown error (unreachable
oracle, unparseable JSON) falls back to the rule-based analysis. -/
def analyzeFailure (oracle : OracleAnalysisOutcome) (context : FailureContext) :
    FailureAnalysisResult :=
  match oracle with
  | .ok analysis => normalizeAnalysis analysis
  | .err => getFallbackAnalysis context

/-! ### The change registry (src/backend/src/models/LocatorChange.model.ts)

The locator_changes table is modelled as a list of records together with a
fresh-id counter.  Ids are issued by the store (uuid in the source, a
natural number here); an UPDATE ... WHERE id rewrites every row with that
id, and a SELECT ... WHERE id returns the first such row. -/

/-- The status column of a locator change. -/
inductive ChangeStatus where
  | pending_approval
  | approved
  | rejected
  | auto_applied
  deriving DecidableEq, Repr

/-- One row of the locator_changes table (columns used by the healing
flow; test_case_id and the metadata json are carried nowhere relevant and
omitted). -/
structure ChangeRecord where
  id : ℕ
  failureId : Option String
  oldLocator : Locator
  newLocator : Locator
  healingStrategy : String
  confidence : ℚ
  status : ChangeStatus
  appliedAt : Bool
  success : Option Bool
  deriving DecidableEq, Repr

/-- The persisted table plus the id generator. -/
structure RegistryState where
  nextId : ℕ
  records : List ChangeRecord
  deriving DecidableEq, Repr

namespace LocatorChangeModel

/-- Input of LocatorChangeModel.create. -/
structure CreateData where
  failureId : Option String
  oldLocator : Locator
  newLocator : Locator
  healingStrategy : String
  confidence : ℚ
  status : Option ChangeStatus
  deriving DecidableEq, Repr

/-- LocatorChangeModel.create: INSERT with status defaulting to
pending_approval, applied_at and success initially unset. -/
def create (st : RegistryState) (data : CreateData) : ℕ × RegistryState :=
  let record : ChangeRecord :=
    { id := st.nextId
      failureId := data.failureId
      oldLocator := data.oldLocator
      newLocator := data.newLocator
      healingStrategy := data.healingStrategy
      confidence := data.confidence
      status := data.status.getD .pending_approval
      appliedAt := false
      success := none }
  (st.nextId, { nextId := st.nextId + 1, records := record :: st.records })

/-- LocatorChangeModel.findById: SELECT ... WHERE id. -/
def findById (st : RegistryState) (id : ℕ) : Option ChangeRecord :=
  st.records.find? (fun r => r.id == id)

/-- UPDATE ... WHERE id: rewrite every row carrying the id. -/
def updateById (st : RegistryState) (id : ℕ) (f : ChangeRecord → ChangeRecord) :
    RegistryState :=
  { st with records := st.records.map (fun r => if r.id == id then f r else r) }

/-- LocatorChangeModel.approve: SET status = approved, applied_at = now. -/
def approve (st : RegistryState) (id : ℕ) : RegistryState :=
  updateById st id (fun r => { r with status := .approved, appliedAt := true })

/-- LocatorChangeModel.reject: SET status = rejected. -/
def reject (st : RegistryState) (id : ℕ) : RegistryState :=
  updateById st id (fun r => { r with status := .rejected })

/-- LocatorChangeModel.markAutoApplied: SET status = auto_applied,
applied_at = now, success = given flag. -/
def markAutoApplied (st : RegistryState) (id : ℕ) (success : Bool) : RegistryState :=
  updateById st id
    (fun r => { r with status := .auto_applied, appliedAt := true, success := some success })

end LocatorChangeModel

/-! ### The healer service (src/backend/src/services/self-healing/LocatorHealer.service.ts) -/

/-- One entry of the suggestedLocators array returned by the oracle. -/
structure LocatorSuggestion where
  type : String
  value : String
  confidence : ℚ
  deriving DecidableEq, Repr

/-- LocatorSuggestionResult from failure.types.ts (the fields the healer
reads). -/
structure SuggestionPayload where
  suggestedLocators : List LocatorSuggestion
  elementDescription : String
  deriving DecidableEq, Repr

/-- Outcome of the oracle call plus JSON parsing inside suggestLocators. -/
inductive SuggestOutcome where
  | err : SuggestOutcome
  | ok : SuggestionPayload → SuggestOutcome
  deriving DecidableEq, Repr

/-- FailureAnalyzerService.suggestLocators: a thrown error is caught and
replaced by an empty suggestion list. -/
def suggestLocators (oracle : SuggestOutcome) : SuggestionPayload :=
  match oracle with
  | .ok suggestions => suggestions
  | .err => { suggestedLocators := [], elementDescription := "Unable to analyze element" }

/-- The HealingResult interface of LocatorHealer.service.ts. -/
structure HealingResult where
  success : Bool
  newLocator : Option Locator
  confidence : ℚ
  strategy : String
  changeId : Option ℕ
  deriving DecidableEq, Repr

/-- Input record of healLocator. -/
structure HealParams where
  page : String
  element : String
  failedLocator : Locator
  fallbackLocators : Option (List Locator)
  error : String
  screenshot : Option String
  failureId : Option String
  deriving DecidableEq, Repr

namespace LocatorHealerService

/-- tryFallbackChain: the source simulates resolution and reports the
first fallback as working, with fixed confidence 75. -/
def tryFallbackChain (fallbacks : List Locator) : HealingResult :=
  match fallbacks with
  | f :: _ =>
    { success := true, newLocator := some f, confidence := 75,
      strategy := "fallback_chain", changeId := none }
  | [] =>
    { success := false, newLocator := none, confidence := 0,
      strategy := "fallback_chain", changeId := none }

/-- The reduce of tryAISuggestion: keep the accumulator unless the current
entry has strictly greater confidence (so the earliest maximum wins). -/
def bestOf (first : LocatorSuggestion) (rest : List LocatorSuggestion) : LocatorSuggestion :=
  rest.foldl (fun best current => if current.confidence > best.confidence then current else best)
    first

/-- tryAISuggestion: ask the analyzer for suggestions; a nonempty list
yields the highest-confidence entry, otherwise the strategy fails.  The
inner catch never fires because suggestLocators already catches. -/
def tryAISuggestion (oracle : SuggestOutcome) : HealingResult :=
  let suggestions := suggestLocators oracle
  match suggestions.suggestedLocators with
  | s :: rest =>
    let bestSuggestion := bestOf s rest
    { success := true
      newLocator := some { type := bestSuggestion.type, value := bestSuggestion.value }
      confidence := bestSuggestion.confidence
      strategy := "ai_suggested"
      changeId := none }
  | [] =>
    { success := false, newLocator := none, confidence := 0,
      strategy := "ai_suggested", changeId := none }

/-- Input record of recordHealingAttempt. -/
structure RecordParams where
  failureId : Option String
  oldLocator : Locator
  newLocator : Locator
  strategy : String
  confidence : ℚ
  deriving DecidableEq, Repr

/-- applyLocatorChange: look the change up; a missing change throws into
the catch, which marks the id auto_applied with success = false (a no-op
update when no row has the id) and reports false; otherwise the change is
marked auto_applied with success = true. -/
def applyLocatorChange (st : RegistryState) (changeId : ℕ) : Bool × RegistryState :=
  match LocatorChangeModel.findById st changeId with
  | none => (false, LocatorChangeModel.markAutoApplied st changeId false)
  | some _ => (true, LocatorChangeModel.markAutoApplied st changeId true)

/-- recordHealingAttempt: choose auto_applied when the confidence reaches
the configured threshold and pending_approval otherwise, insert the
change, and apply it immediately in the auto_applied case. -/
def recordHealingAttempt (autoApplyThreshold : ℚ) (st : RegistryState)
    (params : RecordParams) : ℕ × RegistryState :=
  let status : ChangeStatus :=
    if params.confidence ≥ autoApplyThreshold then .auto_applied else .pending_approval
  let created := LocatorChangeModel.create st
    { failureId := params.failureId
      oldLocator := params.oldLocator
      newLocator := params.newLocator
      healingStrategy := params.strategy
      confidence := params.confidence
      status := some status }
  if status = .auto_applied then
    (created.1, (applyLocatorChange created.2 created.1).2)
  else
    created

/-- healLocator: strategy 1 is the fallback chain (when fallbacks were
supplied and nonempty), strategy 2 is the AI suggestion (when a screenshot
is available); each success records a healing attempt and returns; when
both are unavailable or fail the result is a failure with strategy
none. -/
def healLocator (autoApplyThreshold : ℚ) (oracle : SuggestOutcome)
    (st : RegistryState) (params : HealParams) : HealingResult × RegistryState :=
  let noHeal : HealingResult × RegistryState :=
    ({ success := false, newLocator := none, confidence := 0,
       strategy := "none", changeId := none }, st)
  let strategyTwo : HealingResult × RegistryState :=
    match params.screenshot with
    | some _ =>
      let aiResult := tryAISuggestion oracle
      if aiResult.success then
        match aiResult.newLocator with
        | some newLoc =>
          let recorded := recordHealingAttempt autoApplyThreshold st
            { failureId := params.failureId
              oldLocator := params.failedLocator
              newLocator := newLoc
              strategy := "ai_suggested"
              confidence := aiResult.confidence }
          ({ aiResult with changeId := some recorded.1 }, recorded.2)
        | none => noHeal
      else noHeal
    | none => noHeal
  match params.fallbackLocators with
  | some fallbacks =>
    if fallbacks.length > 0 then
      let fallbackResult := tryFallbackChain fallbacks
      if fallbackResult.success then
        match fallbackResult.newLocator with
        | some newLoc =>
          let recorded := recordHealingAttempt autoApplyThreshold st
            { failureId := params.failureId
              oldLocator := params.failedLocator
              newLocator := newLoc
              strategy := "fallback_chain"
              confidence := fallbackResult.confidence }
          ({ fallbackResult with changeId := some recorded.1 }, recorded.2)
        | none => strategyTwo
      else strategyTwo
    else strategyTwo
  | none => strategyTwo

/-- approveChange: unconditional model-level approve, then the same apply
side effect as auto-apply. -/
def approveChange (st : RegistryState) (changeId : ℕ) : Bool × RegistryState :=
  let st1 := LocatorChangeModel.approve st changeId
  applyLocatorChange st1 changeId

/-- rejectChange: unconditional model-level reject. -/
def rejectChange (st : RegistryState) (changeId : ℕ) : RegistryState :=
  LocatorChangeModel.reject st changeId

end LocatorHealerService

/-! ### The healing controller (src/backend/src/controllers/healing.controller.ts) -/

/-- The HTTP outcome of the approve/reject endpoints: 404, 400 with the
offending current status, or a success response. -/
inductive ApiOutcome where
  | notFound
  | invalidState : ChangeStatus → ApiOutcome
  | accepted : Bool → ApiOutcome
  deriving DecidableEq, Repr

/-- approveLocatorChange: 404 for a missing change, 400 naming the current
status for a change that is not pending_approval, otherwise approve and
apply. -/
def approveLocatorChange (st : RegistryState) (id : ℕ) : ApiOutcome × RegistryState :=
  match LocatorChangeModel.findById st id with
  | none => (.notFound, st)
  | some change =>
    if change.status = .pending_approval then
      let r := LocatorHealerService.approveChange st id
      (.accepted r.1, r.2)
    else
      (.invalidState change.status, st)

/-- rejectLocatorChange: 404 for a missing change, 400 naming the current
status for a change that is not pending_approval, otherwise reject. -/
def rejectLocatorChange (st : RegistryState) (id : ℕ) : ApiOutcome × RegistryState :=
  match LocatorChangeModel.findById st id with
  | none => (.notFound, st)
  | some change =>
    if change.status = .pending_approval then
      (.accepted true, LocatorHealerService.rejectChange st id)
    else
      (.invalidState change.status, st)

/-! ### Definitions written from the specification text

The following definitions follow the words of the specification, not the
source; they exist only to be compared against the embedded source
functions above.  Each one is named with the prefix claimed. -/

/-- The strategy vocabulary of the specification. -/
inductive ClaimedStrategy where
  | fallbackChain
  | aiSuggested
  | similarityMatch
  deriving DecidableEq, Repr

/-- The locator-type vocabulary of the claimed scoring formula. -/
inductive ClaimedLocatorKind where
  | accessibilityId
  | resourceId
  | xpathCss
  | platformQuery
  deriving DecidableEq, Repr

/-- Modelled from the spec: the claimed additive clamped confidence
formula of section 4.1 — base 50, strategy bonus (FallbackChain +25,
AiSuggested +20, SimilarityMatch +15), locator-type bonus (accessibility
id +15, resource id +12, xpath/css +5, platform query +3), up to +10
scaled by elementStability, +5 when testSuccessRate exceeds 0.95 else +3
when it exceeds 0.8, minus 5 per prior failed healing attempt, clamped to
the interval from 0 to 100. -/
def claimedConfidenceScore (strategy : ClaimedStrategy) (kind : ClaimedLocatorKind)
    (elementStability testSuccessRate : ℚ) (priorFailedAttempts : ℕ) : ℚ :=
  let strategyBonus : ℚ :=
    match strategy with
    | .fallbackChain => 25
    | .aiSuggested => 20
    | .similarityMatch => 15
  let kindBonus : ℚ :=
    match kind with
    | .accessibilityId => 15
    | .resourceId => 12
    | .xpathCss => 5
    | .platformQuery => 3
  let successBonus : ℚ :=
    if testSuccessRate > 95 / 100 then 5
    else if testSuccessRate > 8 / 10 then 3
    else 0
  max 0 (min 100
    (50 + strategyBonus + kindBonus + elementStability * 10 + successBonus
      - 5 * (priorFailedAttempts : ℚ)))

/-- A live element candidate for the claimed similarity stage, carrying
the four per-aspect similarity values. -/
structure SimilarCandidate where
  locator : Locator
  textSim : ℚ
  positionSim : ℚ
  sizeSim : ℚ
  attributeSim : ℚ
  deriving DecidableEq, Repr

/-- Modelled from the spec: the weighted similarity of section 4.2 — text
30 percent, position 30 percent, size 20 percent, attributes 20
percent. -/
def claimedSimilarityScore (c : SimilarCandidate) : ℚ :=
  3 / 10 * c.textSim + 3 / 10 * c.positionSim + 2 / 10 * c.sizeSim + 2 / 10 * c.attributeSim

/-- The outcome of the claimed pipeline: a healing attempt or NotFound. -/
inductive ClaimedRepairOutcome where
  | found : ClaimedStrategy → Locator → ClaimedRepairOutcome
  | notFound
  deriving DecidableEq, Repr

/-- The candidate with the greatest claimed similarity score, earliest
first on ties. -/
def topCandidate (first : SimilarCandidate) (rest : List SimilarCandidate) :
    SimilarCandidate :=
  rest.foldl
    (fun best current =>
      if claimedSimilarityScore current > claimedSimilarityScore best then current else best)
    first

/-- Modelled from the spec: the three-strategy repair pipeline of section
4.2, absent from the source (the source runs only the fallback chain and
the AI suggestion).  FallbackChain takes the first resolvable fallback;
AiSuggested runs only under a visual context and accepts the highest
confidence oracle entry when it resolves; SimilarityMatch runs only when
both produced nothing and accepts the top-scored live element exactly
when its weighted similarity exceeds 0.70; otherwise NotFound. -/
def claimedRepairPipeline (resolvable : Locator → Bool)
    (fallbacks : List Locator) (visualContext : Option String)
    (oracleRanked : List LocatorSuggestion) (liveElements : List SimilarCandidate) :
    ClaimedRepairOutcome :=
  match fallbacks.find? resolvable with
  | some f => .found .fallbackChain f
  | none =>
    let aiCandidate : Option Locator :=
      match visualContext with
      | some _ =>
        match oracleRanked with
        | s :: rest =>
          let best := LocatorHealerService.bestOf s rest
          let loc : Locator := { type := best.type, value := best.value }
          if resolvable loc then some loc else none
        | [] => none
      | none => none
    match aiCandidate with
    | some loc => .found .aiSuggested loc
    | none =>
      match liveElements with
      | c :: rest =>
        let top := topCandidate c rest
        if claimedSimilarityScore top > 7 / 10 then .found .similarityMatch top.locator
        else .notFound
      | [] => .notFound

/-! ### Concrete sample values used by witnesses and counterexamples -/

/-- A failure context whose error message matches none of the fallback
rules. -/
def ctxNoPattern : FailureContext :=
  { testName := "login test", platform := "android", errorMessage := "boom",
    stackTrace := "", locatorUsed := none, screenshot := none, logs := none }

/-- An oracle payload every field of which is malformed: unknown category,
out-of-range confidence, missing evidence and suggestion arrays. -/
def rawMalformed : RawAnalysis :=
  { category := some "banana", confidence := some 150, reasoning := some "model reply",
    evidencePoints := none, suggestedActions := none, rootCause := none }

/-- The empty change table. -/
def emptyRegistry : RegistryState := { nextId := 0, records := [] }

/-- A sample fallback locator. -/
def fbLoc : Locator := { type := "accessibilityId", value := "login_btn" }

/-- A healing request carrying one fallback locator and no screenshot. -/
def healReqFallback : HealParams :=
  { page := "LoginPage", element := "username",
    failedLocator := { type := "accessibilityId", value := "username_input" },
    fallbackLocators := some [fbLoc], error := "element not found",
    screenshot := none, failureId := none }

/-- A healing request with no fallback locators and no screenshot. -/
def healReqBare : HealParams :=
  { page := "LoginPage", element := "username",
    failedLocator := { type := "accessibilityId", value := "username_input" },
    fallbackLocators := none, error := "element not found",
    screenshot := none, failureId := none }

/-- A live element that matches the failed element on every similarity
aspect. -/
def liveCandidate : SimilarCandidate :=
  { locator := { type := "xpath", value := "//EditText" },
    textSim := 1, positionSim := 1, sizeSim := 1, attributeSim := 1 }

/-- A pending locator change sitting in the registry. -/
def pendingChange : ChangeRecord :=
  { id := 0, failureId := none,
    oldLocator := { type := "id", value := "username_input" },
    newLocator := { type := "xpath", value := "//EditText" },
    healingStrategy := "fallback_chain", confidence := 70,
    status := .pending_approval, appliedAt := false, success := none }

/-- A registry holding exactly the pending change. -/
def registryWithPending : RegistryState := { nextId := 1, records := [pendingChange] }

/-- An already rejected locator change. -/
def rejectedChange : ChangeRecord := { pendingChange with status := .rejected }

/-- A registry holding exactly the rejected change. -/
def registryWithRejected : RegistryState := { nextId := 1, records := [rejectedChange] }

/-! ### Theorems -/

/-- C4: the claim says the rule-based fallback always returns a present
category (Unknown when no rule matches) and confidence exactly 50.  The
confidence half holds, but the enum FailureCategory of failure.types.ts
has no UNKNOWN member, so the value FailureCategory.UNKNOWN the service
stores on a rule miss is the undefined value: on the concrete no-match
context the returned category is absent. -/
theorem fallback_category_undefined :
    (analyzeFailure .err ctxNoPattern).category = none ∧
    (analyzeFailure .err ctxNoPattern).confidence = 50 := by
  decide

/-- C8 counterexample: a payload with an unknown category, out-of-range
confidence and missing arrays is not discarded in favour of the fallback
path — the normalized result (confidence clamped to 100) differs from the
fallback result (confidence 50). -/
theorem malformed_not_discarded_counterexample :
    (analyzeFailure (.ok rawMalformed) ctxNoPattern).confidence = 100 ∧
    (analyzeFailure .err ctxNoPattern).confidence = 50 ∧
    analyzeFailure (.ok rawMalformed) ctxNoPattern ≠ analyzeFailure .err ctxNoPattern := by
  decide

/-- C3 counterexample: on strategy ai_suggested with locator type xpath,
no failures and zero stability, the code scores 85, while the claimed
formula scores 75, 78 or 80 for every possible success-rate branch. -/
theorem scorer_formula_counterexample :
    calculateHealingConfidence
      { strategy := "ai_suggested", locatorType := "xpath",
        previousFailures := 0, elementStability := 0 } = 85 ∧
    claimedConfidenceScore .aiSuggested .xpathCss 0 0 0 = 75 ∧
    claimedConfidenceScore .aiSuggested .xpathCss 0 (9 / 10) 0 = 78 ∧
    claimedConfidenceScore .aiSuggested .xpathCss 0 1 0 = 80 ∧
    (85 : ℚ) ≠ 75 ∧ (85 : ℚ) ≠ 78 ∧ (85 : ℚ) ≠ 80 := by
  refine ⟨?_, ?_, ?_, ?_, ?_, ?_, ?_⟩ <;>
    norm_num [calculateHealingConfidence, claimedConfidenceScore]

/-- C1 counterexample: a fallback-chain healing records the fixed
confidence 75, while the ConfidenceScorer applied to that attempt with the
concrete history of zero previous failures and stability 1 yields 100 —
the recorded confidence is not produced by the scorer. -/
theorem healer_ignores_scorer_counterexample :
    (LocatorHealerService.healLocator 85 .err emptyRegistry healReqFallback).1.confidence = 75 ∧
    calculateHealingConfidence
      { strategy := "fallback_chain", locatorType := "accessibilityId",
        previousFailures := 0, elementStability := 1 } = 100 ∧
    (75 : ℚ) ≠ 100 := by
  refine ⟨by decide, ?_, by norm_num⟩
  norm_num [calculateHealingConfidence]

/-- C2 counterexample: with no fallbacks, no screenshot and a live
element of weighted similarity 1 (greater than 0.70), the claimed
three-strategy pipeline returns a SimilarityMatch candidate, but the
source pipeline reports failure with strategy none — no similarity stage
exists in the code. -/
theorem similarity_stage_missing_counterexample :
    (LocatorHealerService.healLocator 85 .err emptyRegistry healReqBare).1.success = false ∧
    (LocatorHealerService.healLocator 85 .err emptyRegistry healReqBare).1.strategy = "none" ∧
    claimedRepairPipeline (fun _ => true) [] none [] [liveCandidate] =
      .found .similarityMatch { type := "xpath", value := "//EditText" } ∧
    claimedSimilarityScore liveCandidate = 1 ∧ (7 : ℚ) / 10 < 1 := by
  refine ⟨by decide, by decide, ?_, ?_, by norm_num⟩
  · norm_num [claimedRepairPipeline, topCandidate, claimedSimilarityScore, liveCandidate]
  · norm_num [claimedSimilarityScore, liveCandidate]

/-- C6 counterexample: approving the pending change ends with stored
status auto_applied, not approved — the apply step that follows the
approve overwrites the status. -/
theorem approve_status_counterexample :
    ((LocatorChangeModel.findById
        (LocatorHealerService.approveChange registryWithPending 0).2 0).map
      (fun r => r.status)) = some .auto_applied ∧
    ChangeStatus.auto_applied ≠ ChangeStatus.approved := by
  decide

/-- C9: the ConfidenceScorer is total (a Lean function with no error
path), deterministic (equal inputs give equal outputs) and its output
always lies between 0 and 100. -/
theorem scorer_total_deterministic_bounded (p q : HealingConfidenceParams) (h : p = q) :
    calculateHealingConfidence p = calculateHealingConfidence q ∧
    0 ≤ calculateHealingConfidence p ∧ calculateHealingConfidence p ≤ 100 := by
  subst h
  refine ⟨rfl, ?_, ?_⟩
  · simp only [calculateHealingConfidence]
    exact le_max_left _ _
  · simp only [calculateHealingConfidence]
    exact max_le (by norm_num) (min_le_left _ _)

/-- Sample scorer input for the C9 witness. -/
def sampleScorerInput : HealingConfidenceParams :=
  { strategy := "fallback_chain", locatorType := "xpath",
    previousFailures := 0, elementStability := 17 / 20 }

/-- Witness for C9 at a concrete input. -/
theorem scorer_total_deterministic_bounded_witness :
    sampleScorerInput = sampleScorerInput ∧
    (calculateHealingConfidence sampleScorerInput =
        calculateHealingConfidence sampleScorerInput ∧
      0 ≤ calculateHealingConfidence sampleScorerInput ∧
      calculateHealingConfidence sampleScorerInput ≤ 100) :=
  ⟨rfl, scorer_total_deterministic_bounded sampleScorerInput sampleScorerInput rfl⟩

/-- The strategy switch of the code, as a standalone bonus function. -/
def strategyAdjustment (strategy : String) : ℚ :=
  if strategy = "ai_suggested" then 30
  else if strategy = "similarity_match" then 20
  else if strategy = "fallback_chain" then 25
  else 0

/-- The locator-type switch of the code, as a standalone bonus function. -/
def locatorTypeAdjustment (locatorType : String) : ℚ :=
  if locatorType = "id" ∨ locatorType = "accessibilityId" then 15
  else if locatorType = "xpath" then 5
  else 0

/-- The previous-failures deduction of the code, as a standalone penalty
function: a flat 20 above five failures, a flat 10 above two, nothing
otherwise — not 5 per failure. -/
def priorFailurePenalty (previousFailures : ℤ) : ℚ :=
  if previousFailures > 5 then 20
  else if previousFailures > 2 then 10
  else 0

set_option maxHeartbeats 2000000

/-- C3 amended: the confidence score equals the clamp to the interval from
0 to 100 of 50 plus a strategy bonus of 30 for ai_suggested, 20 for
similarity_match and 25 for fallback_chain, plus a locator-type bonus of
15 for id or accessibilityId and 5 for xpath and 0 otherwise, minus a flat
20 when previous failures exceed 5 or a flat 10 when they exceed 2, plus
10 times the element stability; there is no success-rate term. -/
theorem scorer_closed_form (p : HealingConfidenceParams) :
    calculateHealingConfidence p =
      max 0 (min 100
        (50 + strategyAdjustment p.strategy + locatorTypeAdjustment p.locatorType
          - priorFailurePenalty p.previousFailures + p.elementStability * 10)) := by
  rcases p with ⟨s, t, n, e⟩
  simp only [calculateHealingConfidence, strategyAdjustment, locatorTypeAdjustment,
    priorFailurePenalty]
  repeat' split
  all_goals simp_all

/-- Auxiliary: updating every row keyed on an id leaves the lookup of that
id equal to the mapped original row, provided the update keeps ids. -/
theorem findById_updateById (records : List ChangeRecord) (id : ℕ)
    (f : ChangeRecord → ChangeRecord) (hf : ∀ r, (f r).id = r.id) :
    (records.map (fun r => if r.id == id then f r else r)).find? (fun r => r.id == id) =
      (records.find? (fun r => r.id == id)).map f := by
  induction records with
  | nil => rfl
  | cons r rest ih =>
    by_cases h : (r.id == id) = true
    · have hif : (if (r.id == id) = true then f r else r) = f r := if_pos h
      rw [List.map_cons, hif]
      simp only [List.find?, hf r, h]
      rfl
    · have h2 : (r.id == id) = false := by simpa using h
      have hif : (if (r.id == id) = true then f r else r) = r := if_neg h
      rw [List.map_cons, hif]
      simp only [List.find?, h2]
      exact ih

/-- Auxiliary: applying a change that is present marks it auto_applied
with applied_at set and success recorded as true. -/
theorem findById_applyLocatorChange (st : RegistryState) (id : ℕ) (c : ChangeRecord)
    (h : LocatorChangeModel.findById st id = some c) :
    LocatorChangeModel.findById (LocatorHealerService.applyLocatorChange st id).2 id =
      some { c with status := .auto_applied, appliedAt := true, success := some true } := by
  unfold LocatorHealerService.applyLocatorChange
  simp only [h]
  unfold LocatorChangeModel.markAutoApplied LocatorChangeModel.updateById
  unfold LocatorChangeModel.findById at h ⊢
  rw [findById_updateById _ id
    (fun r => { r with status := .auto_applied, appliedAt := true, success := some true })
    (fun r => rfl), h]
  rfl

/-- C5: a healing attempt whose confidence reaches the operator-configured
auto-apply threshold (default 85) is created auto_applied and committed
immediately (applied_at set, success recorded), while one below the
threshold is created pending_approval and the table is otherwise left
untouched — no application happens until a human resolves it. -/
theorem decision_policy_threshold (threshold : ℚ) (st : RegistryState)
    (p : LocatorHealerService.RecordParams) :
    (p.confidence ≥ threshold →
      LocatorChangeModel.findById
          (LocatorHealerService.recordHealingAttempt threshold st p).2
          (LocatorHealerService.recordHealingAttempt threshold st p).1 =
        some { id := st.nextId, failureId := p.failureId, oldLocator := p.oldLocator,
               newLocator := p.newLocator, healingStrategy := p.strategy,
               confidence := p.confidence, status := .auto_applied,
               appliedAt := true, success := some true }) ∧
    (p.confidence < threshold →
      (LocatorHealerService.recordHealingAttempt threshold st p).1 = st.nextId ∧
      (LocatorHealerService.recordHealingAttempt threshold st p).2.records =
        { id := st.nextId, failureId := p.failureId, oldLocator := p.oldLocator,
          newLocator := p.newLocator, healingStrategy := p.strategy,
          confidence := p.confidence, status := .pending_approval,
          appliedAt := false, success := none } :: st.records) := by
  constructor
  · intro hge
    have hrec : LocatorHealerService.recordHealingAttempt threshold st p =
        (st.nextId, (LocatorHealerService.applyLocatorChange
          { nextId := st.nextId + 1,
            records :=
              { id := st.nextId, failureId := p.failureId, oldLocator := p.oldLocator,
                newLocator := p.newLocator, healingStrategy := p.strategy,
                confidence := p.confidence, status := .auto_applied,
                appliedAt := false, success := none } :: st.records }
          st.nextId).2) := by
      simp [LocatorHealerService.recordHealingAttempt, if_pos hge,
        LocatorChangeModel.create]
    rw [hrec]
    exact findById_applyLocatorChange
      { nextId := st.nextId + 1,
        records :=
          { id := st.nextId, failureId := p.failureId, oldLocator := p.oldLocator,
            newLocator := p.newLocator, healingStrategy := p.strategy,
            confidence := p.confidence, status := ChangeStatus.auto_applied,
            appliedAt := false, success := none } :: st.records }
      st.nextId
      { id := st.nextId, failureId := p.failureId, oldLocator := p.oldLocator,
        newLocator := p.newLocator, healingStrategy := p.strategy,
        confidence := p.confidence, status := ChangeStatus.auto_applied,
        appliedAt := false, success := none }
      (by simp [LocatorChangeModel.findById])
  · intro hlt
    have hne : ¬ (p.confidence ≥ threshold) := not_le.mpr hlt
    constructor <;>
      simp [LocatorHealerService.recordHealingAttempt, if_neg hne,
        LocatorChangeModel.create]

/-- A recorded attempt above the default threshold 85. -/
def sampleHighRecord : LocatorHealerService.RecordParams :=
  { failureId := none, oldLocator := { type := "id", value := "username_input" },
    newLocator := { type := "xpath", value := "//EditText" },
    strategy := "fallback_chain", confidence := 90 }

/-- A recorded attempt below the default threshold 85. -/
def sampleLowRecord : LocatorHealerService.RecordParams :=
  { failureId := none, oldLocator := { type := "id", value := "username_input" },
    newLocator := { type := "xpath", value := "//EditText" },
    strategy := "ai_suggested", confidence := 70 }

/-- Witness for C5 at the default threshold 85 with confidences 90 and
70. -/
theorem decision_policy_threshold_witness :
    (sampleHighRecord.confidence ≥ 85 ∧
      LocatorChangeModel.findById
          (LocatorHealerService.recordHealingAttempt 85 emptyRegistry sampleHighRecord).2
          (LocatorHealerService.recordHealingAttempt 85 emptyRegistry sampleHighRecord).1 =
        some { id := emptyRegistry.nextId, failureId := sampleHighRecord.failureId,
               oldLocator := sampleHighRecord.oldLocator,
               newLocator := sampleHighRecord.newLocator,
               healingStrategy := sampleHighRecord.strategy,
               confidence := sampleHighRecord.confidence, status := .auto_applied,
               appliedAt := true, success := some true }) ∧
    (sampleLowRecord.confidence < 85 ∧
      (LocatorHealerService.recordHealingAttempt 85 emptyRegistry sampleLowRecord).1 =
        emptyRegistry.nextId ∧
      (LocatorHealerService.recordHealingAttempt 85 emptyRegistry sampleLowRecord).2.records =
        { id := emptyRegistry.nextId, failureId := sampleLowRecord.failureId,
          oldLocator := sampleLowRecord.oldLocator,
          newLocator := sampleLowRecord.newLocator,
          healingStrategy := sampleLowRecord.strategy,
          confidence := sampleLowRecord.confidence, status := .pending_approval,
          appliedAt := false, success := none } :: emptyRegistry.records) :=
  ⟨⟨by norm_num [sampleHighRecord],
    (decision_policy_threshold 85 emptyRegistry sampleHighRecord).1
      (by norm_num [sampleHighRecord])⟩,
   ⟨by norm_num [sampleLowRecord],
    (decision_policy_threshold 85 emptyRegistry sampleLowRecord).2
      (by norm_num [sampleLowRecord])⟩⟩

/-- C6 amended: completing approveChange on a present change leaves its
stored status at auto_applied, not approved — the model-level approve sets
Approved, but the shared apply side effect then overwrites the status via
markAutoApplied. -/
theorem approve_then_apply_overwrites (st : RegistryState) (id : ℕ) (c : ChangeRecord)
    (h : LocatorChangeModel.findById st id = some c) :
    LocatorChangeModel.findById (LocatorHealerService.approveChange st id).2 id =
      some { c with status := .auto_applied, appliedAt := true, success := some true } := by
  have h1 : LocatorChangeModel.findById (LocatorChangeModel.approve st id) id =
      some { c with status := .approved, appliedAt := true } := by
    unfold LocatorChangeModel.approve LocatorChangeModel.updateById
    unfold LocatorChangeModel.findById at h ⊢
    rw [findById_updateById st.records id
      (fun r => { r with status := .approved, appliedAt := true }) (fun r => rfl), h]
    rfl
  exact findById_applyLocatorChange (LocatorChangeModel.approve st id) id
    { c with status := .approved, appliedAt := true } h1

/-- Witness for C6 amended on the registry holding one pending change. -/
theorem approve_then_apply_overwrites_witness :
    LocatorChangeModel.findById registryWithPending 0 = some pendingChange ∧
    LocatorChangeModel.findById
        (LocatorHealerService.approveChange registryWithPending 0).2 0 =
      some { pendingChange with
             status := .auto_applied
             appliedAt := true
             success := some true } :=
  ⟨by decide,
   approve_then_apply_overwrites registryWithPending 0 pendingChange (by decide)⟩

/-- C7: the approve and reject endpoints refuse a change that is not
pending_approval with an invalid-state error naming the current status and
leave the registry unchanged. -/
theorem invalid_transition_rejected (st : RegistryState) (id : ℕ) (c : ChangeRecord)
    (hfind : LocatorChangeModel.findById st id = some c)
    (hstatus : c.status ≠ .pending_approval) :
    approveLocatorChange st id = (.invalidState c.status, st) ∧
    rejectLocatorChange st id = (.invalidState c.status, st) := by
  constructor <;> simp [approveLocatorChange, rejectLocatorChange, hfind, hstatus]

/-- Witness for C7: approving a change already Rejected yields the
invalid-state error and the change remains Rejected. -/
theorem invalid_transition_rejected_witness :
    LocatorChangeModel.findById registryWithRejected 0 = some rejectedChange ∧
    rejectedChange.status ≠ ChangeStatus.pending_approval ∧
    (approveLocatorChange registryWithRejected 0 =
        (.invalidState rejectedChange.status, registryWithRejected) ∧
      rejectLocatorChange registryWithRejected 0 =
        (.invalidState rejectedChange.status, registryWithRejected)) :=
  ⟨by decide, by decide,
   invalid_transition_rejected registryWithRejected 0 rejectedChange
     (by decide) (by decide)⟩

/-- C8 amended: a parsed oracle payload is normalized field by field and
returned — malformed fields are repaired in place, never discarded — and
only a thrown error (unreachable oracle, unparseable JSON) routes to the
rule-based fallback; the normalized confidence always lies in the interval
from 0 to 100, an unknown category normalizes to the undefined category
value, and a missing or non-array evidence list normalizes to the empty
list. -/
theorem malformed_repaired_in_place (context : FailureContext) (raw : RawAnalysis) :
    analyzeFailure (.ok raw) context = normalizeAnalysis raw ∧
    analyzeFailure .err context = getFallbackAnalysis context ∧
    0 ≤ (normalizeAnalysis raw).confidence ∧
    (normalizeAnalysis raw).confidence ≤ 100 ∧
    (∀ s, raw.category = some s → parseCategory s = none →
      (normalizeAnalysis raw).category = none) ∧
    (raw.evidencePoints = none → (normalizeAnalysis raw).evidencePoints = []) := by
  refine ⟨rfl, rfl, ?_, ?_, ?_, ?_⟩
  · simp only [normalizeAnalysis]
    exact le_max_left _ _
  · simp only [normalizeAnalysis]
    exact max_le (by norm_num) (min_le_left _ _)
  · intro s hs hp
    simp [normalizeAnalysis, hs, hp]
  · intro hev
    simp [normalizeAnalysis, hev]

/-- Witness for C8 amended on the fully malformed payload. -/
theorem malformed_repaired_in_place_witness :
    (analyzeFailure (.ok rawMalformed) ctxNoPattern = normalizeAnalysis rawMalformed ∧
      analyzeFailure .err ctxNoPattern = getFallbackAnalysis ctxNoPattern ∧
      0 ≤ (normalizeAnalysis rawMalformed).confidence ∧
      (normalizeAnalysis rawMalformed).confidence ≤ 100 ∧
      (∀ s, rawMalformed.category = some s → parseCategory s = none →
        (normalizeAnalysis rawMalformed).category = none) ∧
      (rawMalformed.evidencePoints = none →
        (normalizeAnalysis rawMalformed).evidencePoints = [])) ∧
    (normalizeAnalysis rawMalformed).category = none ∧
    (normalizeAnalysis rawMalformed).evidencePoints = [] :=
  ⟨malformed_repaired_in_place ctxNoPattern rawMalformed,
   (malformed_repaired_in_place ctxNoPattern rawMalformed).2.2.2.2.1 "banana" rfl rfl,
   (malformed_repaired_in_place ctxNoPattern rawMalformed).2.2.2.2.2 rfl⟩

/-- C1 amended: the orchestrator never applies the ConfidenceScorer — a
fallback-chain success records the fixed confidence 75, and an AI
suggestion success records the chosen (highest-confidence) oracle
suggestion confidence. -/
theorem healer_recorded_confidence (threshold : ℚ) (oracle : SuggestOutcome)
    (st : RegistryState) (p : HealParams) :
    (∀ f fs, p.fallbackLocators = some (f :: fs) →
      (LocatorHealerService.healLocator threshold oracle st p).1.confidence = 75) ∧
    (∀ s payload l ls, (p.fallbackLocators = none ∨ p.fallbackLocators = some []) →
      p.screenshot = some s → oracle = .ok payload →
      payload.suggestedLocators = l :: ls →
      (LocatorHealerService.healLocator threshold oracle st p).1.confidence =
        (LocatorHealerService.bestOf l ls).confidence) := by
  constructor
  · intro f fs hfb
    rcases p with ⟨pg, el, fl, fb, er, sc, fi⟩
    simp only at hfb
    subst hfb
    simp [LocatorHealerService.healLocator, LocatorHealerService.tryFallbackChain]
  · intro s payload l ls hfb hsc hor hsl
    rcases p with ⟨pg, el, fl, fb, er, sc, fi⟩
    simp only at hfb hsc
    subst hsc
    subst hor
    rcases payload with ⟨sl, ed⟩
    simp only at hsl
    subst hsl
    rcases hfb with hfb | hfb <;> subst hfb <;>
      simp [LocatorHealerService.healLocator, LocatorHealerService.tryAISuggestion,
        suggestLocators]

/-- Witness for C1 amended on the request carrying one fallback. -/
theorem healer_recorded_confidence_witness :
    healReqFallback.fallbackLocators = some (fbLoc :: []) ∧
    (LocatorHealerService.healLocator 85 .err emptyRegistry healReqFallback).1.confidence
      = 75 :=
  ⟨rfl,
   (healer_recorded_confidence 85 .err emptyRegistry healReqFallback).1 fbLoc [] rfl⟩

/-- C2 amended: the pipeline consists of exactly two strategies in fixed
priority order — the fallback chain first (its candidate wins whenever
fallbacks are supplied, whatever the oracle would say), then the AI
suggestion (only under a screenshot) — short-circuiting on the first
success and otherwise reporting failure with strategy none; the result
strategy is always fallback_chain, ai_suggested or none, never a
similarity match. -/
theorem pipeline_two_strategies (threshold : ℚ) (oracle : SuggestOutcome)
    (st : RegistryState) (p : HealParams) :
    (∀ f fs, p.fallbackLocators = some (f :: fs) →
      (LocatorHealerService.healLocator threshold oracle st p).1.success = true ∧
      (LocatorHealerService.healLocator threshold oracle st p).1.strategy =
        "fallback_chain" ∧
      (LocatorHealerService.healLocator threshold oracle st p).1.newLocator = some f) ∧
    ((p.fallbackLocators = none ∨ p.fallbackLocators = some []) → p.screenshot = none →
      (LocatorHealerService.healLocator threshold oracle st p).1 =
        { success := false, newLocator := none, confidence := 0,
          strategy := "none", changeId := none } ∧
      (LocatorHealerService.healLocator threshold oracle st p).2 = st) ∧
    ((LocatorHealerService.healLocator threshold oracle st p).1.strategy =
        "fallback_chain" ∨
     (LocatorHealerService.healLocator threshold oracle st p).1.strategy =
        "ai_suggested" ∨
     (LocatorHealerService.healLocator threshold oracle st p).1.strategy = "none") := by
  refine ⟨?_, ?_, ?_⟩
  · intro f fs hfb
    rcases p with ⟨pg, el, fl, fb, er, sc, fi⟩
    simp only at hfb
    subst hfb
    simp [LocatorHealerService.healLocator, LocatorHealerService.tryFallbackChain]
  · intro hfb hsc
    rcases p with ⟨pg, el, fl, fb, er, sc, fi⟩
    simp only at hfb hsc
    subst hsc
    rcases hfb with hfb | hfb <;> subst hfb <;>
      simp [LocatorHealerService.healLocator]
  · rcases p with ⟨pg, el, fl, fb, er, sc, fi⟩
    rcases oracle with _ | ⟨sl, ed⟩
    all_goals rcases fb with _ | (_ | ⟨f, fs⟩)
    all_goals rcases sc with _ | s
    all_goals try rcases sl with _ | ⟨l1, ls⟩
    all_goals
      simp [LocatorHealerService.healLocator, LocatorHealerService.tryFallbackChain,
        LocatorHealerService.tryAISuggestion, suggestLocators]

/-- Witness for C2 amended on the request carrying one fallback. -/
theorem pipeline_two_strategies_witness :
    healReqFallback.fallbackLocators = some (fbLoc :: []) ∧
    ((LocatorHealerService.healLocator 85 .err emptyRegistry healReqFallback).1.success
        = true ∧
      (LocatorHealerService.healLocator 85 .err emptyRegistry healReqFallback).1.strategy
        = "fallback_chain" ∧
      (LocatorHealerService.healLocator 85 .err emptyRegistry
          healReqFallback).1.newLocator = some fbLoc) :=
  ⟨rfl,
   (pipeline_two_strategies 85 .err emptyRegistry healReqFallback).1 fbLoc [] rfl⟩
